import Mathlib

/-!
Verification development for the Heimdallr metrics engine
(src/core/metrics.py).  The definitions below are a shallow embedding of
the functions `get_volume_cm3`, `get_mean_hu` and the analyzer steps of
`calculate_all_metrics`.  Floating point numbers are modelled as exact
rationals; numpy arrays are modelled as finite 3D grids (`Vol3`); a file
that is absent or fails to load is modelled as `Option.none`.
-/

namespace Heimdallr

/-- Python round-half-to-even (banker rounding) of a rational to an
integer, as performed by the builtin `round` on a float. -/
def pyRoundInt (q : ℚ) : ℤ :=
  if q - ⌊q⌋ < 1/2 then ⌊q⌋
  else if 1/2 < q - ⌊q⌋ then ⌊q⌋ + 1
  else if 2 ∣ ⌊q⌋ then ⌊q⌋ else ⌊q⌋ + 1

/-- Python `round(x, k)`: round to `k` decimal places. -/
def pyRoundTo (k : ℕ) (q : ℚ) : ℚ :=
  (pyRoundInt (q * 10 ^ k) : ℚ) / 10 ^ k

/-- Python `int(x)` on a float: truncation toward zero. -/
def pyTrunc (q : ℚ) : ℤ :=
  if 0 ≤ q then ⌊q⌋ else -⌊-q⌋

/-- A 3D voxel grid with physical voxel spacing in mm, modelling a NIfTI
volume (intensity image or segmentation mask).  `val i j k` is the voxel
value at index `(i, j, k)`; `zx, zy, zz` are `header.get_zooms()`. -/
structure Vol3 where
  nx : ℕ
  ny : ℕ
  nz : ℕ
  val : ℕ → ℕ → ℕ → ℚ
  zx : ℚ
  zy : ℚ
  zz : ℚ

/-- All voxel index triples of a grid, in C (row-major) order. -/
def cells (v : Vol3) : List (ℕ × ℕ × ℕ) :=
  (List.range v.nx).flatMap fun i =>
    (List.range v.ny).flatMap fun j =>
      (List.range v.nz).map fun k => (i, j, k)

/-- Number of strictly positive voxels: `np.sum(data > 0)`. -/
def countPos (v : Vol3) : ℕ :=
  (cells v).countP fun c => decide (0 < v.val c.1 c.2.1 c.2.2)

/-- Sum of the voxel values of one axial slice: `data.sum(axis=(0, 1))[k]`. -/
def sliceSum (v : Vol3) (k : ℕ) : ℚ :=
  (((List.range v.nx).flatMap fun i => (List.range v.ny).map fun j => (i, j)).map
    fun c => v.val c.1 c.2 k).sum

/-- Axial indices whose slice has positive mask sum:
`np.where(mask.sum(axis=(0, 1)) > 0)[0]`.  The result is sorted
ascending and has no duplicates, as `np.where` returns. -/
def axialPositiveIndices (v : Vol3) : List ℕ :=
  (List.range v.nz).filter fun k => decide (0 < sliceSum v k)

/-- Shape equality of two grids, `a.shape == b.shape`. -/
def sameShape (a b : Vol3) : Bool :=
  a.nx == b.nx && a.ny == b.ny && a.nz == b.nz

/-- Intensity values at mask-positive voxels: `ct_data[mask > 0]`. -/
def maskedVoxels (ct mask : Vol3) : List ℚ :=
  ((cells mask).filter fun c => decide (0 < mask.val c.1 c.2.1 c.2.2)).map
    fun c => ct.val c.1 c.2.1 c.2.2

/-- Mean of a list of rationals, `np.mean`. -/
def meanOf (l : List ℚ) : ℚ := l.sum / l.length

/-- Population variance of a list of rationals.  The source records
`np.std`, the square root of this quantity; the square root of a
rational is generally irrational, so this embedding carries the
variance instead.  No claim below depends on the numeric magnitude of
the recorded std, only on whether it is a number, `0.0`, or null. -/
def varOf (l : List ℚ) : ℚ := meanOf (l.map fun x => (x - meanOf l) ^ 2)

/-- Embedding of `get_volume_cm3` (metrics.py:33): volume in cm3 of a
mask file.  A missing file returns `0.0` (metrics.py:35), and so does a
file whose load raises (metrics.py:46); both are modelled as `none`.
Otherwise the count of positive voxels times the voxel volume in mm3,
divided by 1000 and rounded to 3 decimals. -/
def get_volume_cm3 (mask : Option Vol3) : ℚ :=
  match mask with
  | none => 0
  | some nii => pyRoundTo 3 ((countPos nii : ℚ) * (nii.zx * nii.zy * nii.zz) / 1000)

/-- Embedding of `get_mean_hu` (metrics.py:50): mean and std (here:
variance, see `varOf`) of intensity at mask-positive voxels, both
rounded to 2 decimals; `none` when the file is absent, the shapes
mismatch, or the mask is empty. -/
def get_mean_hu (mask : Option Vol3) (ct : Vol3) : Option (ℚ × ℚ) :=
  match mask with
  | none => none
  | some m =>
    if sameShape m ct then
      let voxels := maskedVoxels ct m
      if voxels.length = 0 then none
      else some (pyRoundTo 2 (meanOf voxels), pyRoundTo 2 (varOf voxels))
    else none

/-- Embedding of the Pickhardt classification step (metrics.py:461):
the bone-density class as a function of the unrounded ROI mean HU.  The
source spells the osteoporosis label "Osteoporose". -/
def bmd_classification (hu_mean : ℚ) : String :=
  if hu_mean > 160 then "Normal"
  else if hu_mean ≥ 100 then "Osteopenia"
  else "Osteoporose"

/-- Embedding of the BMD erosion-iteration computation (metrics.py:386):
`in_plane_spacing = min(spacing[0], spacing[1])` followed by
`erosion_iters = max(1, int(5.0 / in_plane_spacing))`. -/
def erosion_iters (zx zy : ℚ) : ℤ :=
  max 1 (pyTrunc (5 / min zx zy))

/-- Embedding of the liver PDFF formula (metrics.py:167):
`pdff = -0.58 * hu_mean + 38.2`, clamped to `[0, 100]` and rounded to 2
decimals. -/
def liver_pdff (hu_mean : ℚ) : ℚ :=
  pyRoundTo 2 (max 0 (min 100 ((-58/100) * hu_mean + 382/10)))

/-- One entry of the per-organ result block (metrics.py:150).  Outer
`Option` on the HU fields means the key is present in the result dict;
the inner `Option` distinguishes a numeric value from null. -/
structure OrganEntry where
  vol : ℚ
  hu_mean : Option (Option ℚ)
  hu_std : Option (Option ℚ)
  pdff : Option ℚ
  pdff_kvp : Option String

/-- Embedding of one iteration of the organ loop (metrics.py:150):
volume for all modalities; HU mean and std keys only for CT (null when
`get_mean_hu` fails); for the liver on CT additionally PDFF when the
volume exceeds 0.1 cm3 and the mean HU is available, together with the
raw kVp tag. -/
def organEntry (modality : String) (organ_name : String) (mask : Option Vol3)
    (ct : Vol3) (kvp_raw : String) : OrganEntry :=
  let vol := get_volume_cm3 mask
  if modality == "CT" then
    match get_mean_hu mask ct with
    | some (hm, hs) =>
      { vol := vol
        hu_mean := some (some hm)
        hu_std := some (some hs)
        pdff := if organ_name == "liver" && decide (vol > 1/10) then
                  some (liver_pdff hm) else none
        pdff_kvp := if organ_name == "liver" && decide (vol > 1/10) then
                  some kvp_raw else none }
    | none =>
      { vol := vol, hu_mean := some none, hu_std := some none
        pdff := none, pdff_kvp := none }
  else
    { vol := vol, hu_mean := some none, hu_std := some none
      pdff := none, pdff_kvp := none }

/-- The organ catalog `organs_map` (metrics.py:143). -/
def organs_map : List (String × String) :=
  [("liver", "liver.nii.gz"),
   ("spleen", "spleen.nii.gz"),
   ("kidney_right", "kidney_right.nii.gz"),
   ("kidney_left", "kidney_left.nii.gz")]

/-- The `{organ}_vol_cm3` entries produced by the organ loop
(metrics.py:150): one key per catalog organ, in catalog order, whose
value is `get_volume_cm3` of the organ file (`0.0` when the file is
absent or fails to load, both modelled as `none`). -/
def organVolEntries (files : String → Option Vol3) : List (String × ℚ) :=
  organs_map.map fun p => (p.1 ++ "_vol_cm3", get_volume_cm3 (files p.2))

/-- Representative-slice selection for the hemorrhage analysis
(metrics.py:292): positions at 15, 50 and 85 percent of the index-set
length (float product truncated by `int`, modelled as the exact floor,
which `int` equals on nonnegative values), clamped to the valid range,
then read from the sorted index list. -/
def repSlices (zs : List ℕ) : ℕ × ℕ × ℕ :=
  let n := zs.length
  let idx15 := max 0 (min (n * 15 / 100) (n - 1))
  let idx50 := max 0 (min (n * 50 / 100) (n - 1))
  let idx85 := max 0 (min (n * 85 / 100) (n - 1))
  (zs.getD idx15 0, zs.getD idx50 0, zs.getD idx85 0)

/-- Result keys of the hemorrhage analysis: `hemorrhage_vol_cm3` and
`hemorrhage_analysis_slices` (inferior_15, center_50, superior_85). -/
structure HemResult where
  vol : Option ℚ
  slices : Option (ℕ × ℕ × ℕ)

/-- Embedding of the hemorrhage step (metrics.py:277).  The volume key
is written whenever the bleed file exists; the slice triple is computed
whenever the volume is positive and some axial slice is positive, but
the `results` assignment for it (metrics.py:345) sits inside the
CT-only overlay branch, after the shape check (metrics.py:317), so it
is written only when the modality is CT and the shapes match.  Overlay
rendering itself is a side effect and is assumed not to raise. -/
def hemorrhageStep (modality : String) (bleed : Option Vol3) (ct : Vol3) : HemResult :=
  match bleed with
  | none => { vol := none, slices := none }
  | some mask_bleed =>
    let vol := get_volume_cm3 (some mask_bleed)
    if vol > 0 then
      let zs := axialPositiveIndices mask_bleed
      if zs.length > 0 then
        let slices_to_gen := repSlices zs
        if modality == "CT" then
          if sameShape ct mask_bleed then
            { vol := some vol, slices := some slices_to_gen }
          else
            { vol := some vol, slices := none }
        else { vol := some vol, slices := none }
      else { vol := some vol, slices := none }
    else { vol := some vol, slices := none }

/-- Count of positive voxels in one axial slice:
`np.sum(mask_slice > 0)` for `mask_slice = data[:, :, k]`. -/
def slicePosCount (v : Vol3) (k : ℕ) : ℕ :=
  ((List.range v.nx).flatMap fun i => (List.range v.ny).map fun j => (i, j)).countP
    fun c => decide (0 < v.val c.1 c.2 k)

/-- Intensity values of one axial CT slice at mask-positive in-plane
positions: `ct[:, :, k][mask_slice > 0]`. -/
def sliceMaskedVoxels (ct m : Vol3) (k : ℕ) : List ℚ :=
  (((List.range m.nx).flatMap fun i => (List.range m.ny).map fun j => (i, j)).filter
    fun c => decide (0 < m.val c.1 c.2 k)).map fun c => ct.val c.1 c.2 k

/-- Result keys of the L3 sarcopenia analysis: `slice_L3`, `SMA_cm2`,
`muscle_HU_mean`, `muscle_HU_std`.  Outer `Option` is key presence,
inner `Option` on the HU fields distinguishes a number from null. -/
structure L3Result where
  slice_L3 : Option ℕ
  SMA_cm2 : Option ℚ
  muscle_HU_mean : Option (Option ℚ)
  muscle_HU_std : Option (Option ℚ)

/-- Embedding of the L3 sarcopenia step (metrics.py:185).  The landmark
slice key is written (metrics.py:197) before any muscle handling, and
the surrounding handler (metrics.py:268) catches later exceptions while
leaving already-written keys in place, so it survives an absent muscle
mask, an out-of-range slice index, or an in-plane shape mismatch.  The
overlay block (metrics.py:200) has its own inner handler and writes no
result keys, so it is not modelled.  An out-of-range axial index in
`muscle_data[:, :, slice_idx]` and a boolean-index shape mismatch in
`ct[:, :, slice_idx][mask_slice > 0]` both raise and end the step. -/
def l3Step (modality : String) (vL3 muscle : Option Vol3) (ct : Vol3) : L3Result :=
  match vL3 with
  | none => { slice_L3 := none, SMA_cm2 := none, muscle_HU_mean := none, muscle_HU_std := none }
  | some mL3 =>
    let zs := axialPositiveIndices mL3
    if zs.length > 0 then
      let slice_idx := zs.getD (zs.length / 2) 0
      match muscle with
      | none =>
        { slice_L3 := some slice_idx, SMA_cm2 := none
          muscle_HU_mean := none, muscle_HU_std := none }
      | some m =>
        if slice_idx < m.nz then
          let sma := pyRoundTo 3 ((slicePosCount m slice_idx : ℚ) * m.zx * m.zy / 100)
          if modality == "CT" then
            if m.nx == ct.nx && m.ny == ct.ny && decide (slice_idx < ct.nz) then
              let voxels := sliceMaskedVoxels ct m slice_idx
              if voxels.length > 0 then
                { slice_L3 := some slice_idx, SMA_cm2 := some sma
                  muscle_HU_mean := some (some (pyRoundTo 2 (meanOf voxels)))
                  muscle_HU_std := some (some (pyRoundTo 2 (varOf voxels))) }
              else
                { slice_L3 := some slice_idx, SMA_cm2 := some sma
                  muscle_HU_mean := some (some 0), muscle_HU_std := some (some 0) }
            else
              { slice_L3 := some slice_idx, SMA_cm2 := some sma
                muscle_HU_mean := none, muscle_HU_std := none }
          else
            { slice_L3 := some slice_idx, SMA_cm2 := some sma
              muscle_HU_mean := some none, muscle_HU_std := some none }
        else
          { slice_L3 := some slice_idx, SMA_cm2 := none
            muscle_HU_mean := none, muscle_HU_std := none }
    else
      { slice_L3 := none, SMA_cm2 := none, muscle_HU_mean := none, muscle_HU_std := none }

/-- The lung lobe catalog `lung_lobes_map` (metrics.py:540). -/
def lung_lobes_map : List (String × String) :=
  [("lung_upper_lobe_left", "lung_upper_lobe_left.nii.gz"),
   ("lung_lower_lobe_left", "lung_lower_lobe_left.nii.gz"),
   ("lung_upper_lobe_right", "lung_upper_lobe_right.nii.gz"),
   ("lung_middle_lobe_right", "lung_middle_lobe_right.nii.gz"),
   ("lung_lower_lobe_right", "lung_lower_lobe_right.nii.gz")]

/-- The dict `lobe_min_volumes_cm3` (metrics.py:552), read with
`.get(lobe_key, 0)`. -/
def lobe_min_volumes_cm3 (k : String) : ℚ :=
  if k == "lung_upper_lobe_left" then 100
  else if k == "lung_lower_lobe_left" then 100
  else if k == "lung_upper_lobe_right" then 100
  else if k == "lung_middle_lobe_right" then 50
  else if k == "lung_lower_lobe_right" then 100
  else 0

/-- Embedding of the lobe-completeness gate (metrics.py:560): every
lobe file must exist and its volume must not be strictly below the
lobe-specific minimum (`vol_cm3 < min_vol` marks incomplete, so a lobe
at exactly the threshold passes). -/
def lobes_complete (files : String → Option Vol3) : Bool :=
  lung_lobes_map.all fun p =>
    match files p.2 with
    | none => false
    | some _ => !decide (get_volume_cm3 (files p.2) < lobe_min_volumes_cm3 p.1)

/-- Embedding of the emphysema try-block body (metrics.py:577).  Its
first computation (metrics.py:584) reads the function-local `nii_lobe`
to obtain the voxel volume, but `nii_lobe` is first assigned only
inside the per-lobe loop below it (metrics.py:589); the local is
therefore still unbound at that point and the read raises
UnboundLocalError.  The unbound local is modelled as `none`.  The rest
of the body — unreachable in the source — is embedded below the read
for completeness: per-lobe metrics for shape-matching nonempty lobes,
voxel-weighted totals, and status Complete when any lobe voxels were
counted. -/
def emphysemaTry (files : String → Option Vol3) (ct : Vol3) :
    Except String (List (String × ℚ) × Option String) :=
  match (none : Option Vol3) with
  | none => Except.error "UnboundLocalError: local variable nii_lobe referenced before assignment"
  | some nii_lobe => do
    let voxel_vol_cm3 := nii_lobe.zx * nii_lobe.zy * nii_lobe.zz / 1000
    let res ← lung_lobes_map.foldlM
      (fun (acc : List (String × ℚ) × ℕ × ℕ) p => do
        match files p.2 with
        | none => Except.error "FileNotFoundError"
        | some nii =>
          if sameShape nii ct then
            let lobe_voxels := maskedVoxels ct nii
            let n_total := lobe_voxels.length
            if n_total > 0 then
              let n_emphysema := lobe_voxels.countP fun x => decide (x < -950)
              pure (acc.1 ++
                [(p.1 ++ "_emphysema_percent", pyRoundTo 2 ((n_emphysema : ℚ) / n_total * 100)),
                 (p.1 ++ "_vol_cm3", pyRoundTo 2 ((n_total : ℚ) * voxel_vol_cm3)),
                 (p.1 ++ "_emphysema_vol_cm3", pyRoundTo 2 ((n_emphysema : ℚ) * voxel_vol_cm3)),
                 (p.1 ++ "_total_voxels", (n_total : ℚ))],
                acc.2.1 + n_total, acc.2.2 + n_emphysema)
            else pure acc
          else pure acc)
      ([], 0, 0)
    let (entries, tot, totE) := res
    if tot > 0 then
      pure (entries ++
        [("total_lung_emphysema_percent", pyRoundTo 2 ((totE : ℚ) / tot * 100)),
         ("total_lung_vol_cm3", pyRoundTo 2 ((tot : ℚ) * voxel_vol_cm3)),
         ("total_lung_emphysema_vol_cm3", pyRoundTo 2 ((totE : ℚ) * voxel_vol_cm3))],
        some "Complete")
    else Except.ok (entries, none)

/-- Result of the emphysema step: the `lung_analysis_status` key and
the per-lobe / total metric keys (absent unless the try-block body
runs to completion). -/
structure EmphResult where
  status : Option String
  lobe_metrics : Option (List (String × ℚ))

/-- Embedding of the emphysema step (metrics.py:576): when the gate
passes and the modality is CT, run the try body; its failure is caught
(metrics.py:619) and sets status Error.  Otherwise status is
"Incomplete or non-CT" and no lobe metrics are written. -/
def emphysemaStep (modality : String) (files : String → Option Vol3) (ct : Vol3) : EmphResult :=
  if lobes_complete files && modality == "CT" then
    match emphysemaTry files ct with
    | Except.ok (entries, st) => { status := st, lobe_metrics := some entries }
    | Except.error _ => { status := some "Error", lobe_metrics := none }
  else { status := some "Incomplete or non-CT", lobe_metrics := none }

/-! ### Concrete example inputs -/

/-- A concrete all-zero 2x2x2 mask with unit spacing. -/
def zeroMask2 : Vol3 :=
  { nx := 2, ny := 2, nz := 2, val := fun _ _ _ => 0, zx := 1, zy := 1, zz := 1 }

/-- A concrete one-voxel mask whose voxel measures 10x10x10 mm, giving
a volume of exactly 1 cm3. -/
def unitBleedMask : Vol3 :=
  { nx := 1, ny := 1, nz := 1, val := fun _ _ _ => 1, zx := 10, zy := 10, zz := 10 }

/-- A concrete 1x1x3 mask that is positive on all three axial slices,
with unit spacing. -/
def threeSliceMask : Vol3 :=
  { nx := 1, ny := 1, nz := 3, val := fun _ _ _ => 1, zx := 1, zy := 1, zz := 1 }

/-- A concrete all-zero 1x1x1 intensity volume with unit spacing. -/
def tinyCt : Vol3 :=
  { nx := 1, ny := 1, nz := 1, val := fun _ _ _ => 0, zx := 1, zy := 1, zz := 1 }

/-- A concrete all-zero 1x1x3 intensity volume with unit spacing. -/
def tinyCt3 : Vol3 :=
  { nx := 1, ny := 1, nz := 3, val := fun _ _ _ => 0, zx := 1, zy := 1, zz := 1 }

/-- A one-voxel lung lobe mask whose voxel volume is chosen so that the
lobe volume is exactly 100 cm3. -/
def lobe100 : Vol3 :=
  { nx := 1, ny := 1, nz := 1, val := fun _ _ _ => 1, zx := 1000, zy := 10, zz := 10 }

/-- A one-voxel lung lobe mask whose voxel volume is chosen so that the
lobe volume is exactly 50 cm3. -/
def lobe50 : Vol3 :=
  { nx := 1, ny := 1, nz := 1, val := fun _ _ _ => 1, zx := 500, zy := 10, zz := 10 }

/-- A concrete mask directory holding all five lung lobe files, each at
exactly its minimum clinical volume (100 cm3, or 50 cm3 for the right
middle lobe), and nothing else. -/
def exLungFiles : String → Option Vol3 := fun name =>
  if name == "lung_middle_lobe_right.nii.gz" then some lobe50
  else if name == "lung_upper_lobe_left.nii.gz" then some lobe100
  else if name == "lung_lower_lobe_left.nii.gz" then some lobe100
  else if name == "lung_upper_lobe_right.nii.gz" then some lobe100
  else if name == "lung_lower_lobe_right.nii.gz" then some lobe100
  else none

/-! ### Helper lemmas -/

theorem pyRoundInt_cases (q : ℚ) : pyRoundInt q = ⌊q⌋ ∨ pyRoundInt q = ⌊q⌋ + 1 := by
  unfold pyRoundInt
  split_ifs <;> simp

theorem pyRoundInt_nonneg {q : ℚ} (h : 0 ≤ q) : 0 ≤ pyRoundInt q := by
  have hf : (0 : ℤ) ≤ ⌊q⌋ := Int.floor_nonneg.mpr h
  rcases pyRoundInt_cases q with hc | hc <;> omega

theorem pyRoundInt_le {q : ℚ} {N : ℤ} (h : q ≤ N) : pyRoundInt q ≤ N := by
  have hf : ⌊q⌋ ≤ N := by
    have := Int.floor_le_floor h
    simpa using this
  rcases lt_or_eq_of_le hf with hlt | heq
  · rcases pyRoundInt_cases q with hc | hc <;> omega
  · have hq : q = (⌊q⌋ : ℚ) := by
      refine le_antisymm ?_ (Int.floor_le q)
      rw [heq]; exact h
    have hr : q - (⌊q⌋ : ℚ) = 0 := by linarith [hq.le, hq.ge]
    unfold pyRoundInt
    rw [if_pos (by rw [hr]; norm_num)]
    omega

theorem pyRoundTo_nonneg {k : ℕ} {q : ℚ} (h : 0 ≤ q) : 0 ≤ pyRoundTo k q := by
  unfold pyRoundTo
  have h1 : (0 : ℤ) ≤ pyRoundInt (q * 10 ^ k) := pyRoundInt_nonneg (by positivity)
  positivity

theorem pyRoundTo_le_intCast {k : ℕ} {q : ℚ} {N : ℤ} (h : q ≤ N) : pyRoundTo k q ≤ N := by
  unfold pyRoundTo
  have h1 : pyRoundInt (q * 10 ^ k) ≤ N * 10 ^ k := by
    apply pyRoundInt_le
    push_cast
    have hp : (0 : ℚ) < 10 ^ k := by positivity
    exact mul_le_mul_of_nonneg_right h hp.le
  rw [div_le_iff₀ (by positivity : (0 : ℚ) < 10 ^ k)]
  calc (pyRoundInt (q * 10 ^ k) : ℚ) ≤ ((N * 10 ^ k : ℤ) : ℚ) := by exact_mod_cast h1
    _ = (N : ℚ) * 10 ^ k := by push_cast; ring

theorem pyRoundTo_zero (k : ℕ) : pyRoundTo k 0 = 0 := by
  unfold pyRoundTo pyRoundInt
  norm_num

theorem pyRoundInt_intCast (z : ℤ) : pyRoundInt (z : ℚ) = z := by
  unfold pyRoundInt
  norm_num

theorem pyRoundTo_intCast (k : ℕ) (z : ℤ) : pyRoundTo k (z : ℚ) = z := by
  unfold pyRoundTo
  have h : (z : ℚ) * 10 ^ k = ((z * 10 ^ k : ℤ) : ℚ) := by push_cast; ring
  rw [h, pyRoundInt_intCast]
  push_cast
  field_simp

theorem axialPositiveIndices_sorted (v : Vol3) :
    (axialPositiveIndices v).Sorted (· ≤ ·) := by
  unfold axialPositiveIndices
  exact (List.sorted_lt_range v.nz).filter _ |>.imp le_of_lt

theorem sorted_getD_mono {zs : List ℕ} (hs : zs.Sorted (· ≤ ·)) {i j : ℕ}
    (hij : i ≤ j) (hj : j < zs.length) : zs.getD i 0 ≤ zs.getD j 0 := by
  have hi : i < zs.length := lt_of_le_of_lt hij hj
  rw [List.getD_eq_getElem zs 0 hi, List.getD_eq_getElem zs 0 hj]
  rcases lt_or_eq_of_le hij with hlt | heq
  · exact List.pairwise_iff_getElem.mp hs i j hi hj hlt
  · subst heq; exact le_refl _

/-! ### Evaluation lemmas for the concrete example inputs -/

theorem vol_unitBleed : get_volume_cm3 (some unitBleedMask) = 1 := by
  show pyRoundTo 3 ((countPos unitBleedMask : ℚ) *
      (unitBleedMask.zx * unitBleedMask.zy * unitBleedMask.zz) / 1000) = 1
  rw [show countPos unitBleedMask = 1 from by decide]
  rw [show ((1 : ℕ) : ℚ) * (unitBleedMask.zx * unitBleedMask.zy * unitBleedMask.zz) / 1000
      = ((1 : ℤ) : ℚ) from by norm_num [unitBleedMask]]
  rw [pyRoundTo_intCast]
  norm_num

theorem vol_lobe100 : get_volume_cm3 (some lobe100) = 100 := by
  show pyRoundTo 3 ((countPos lobe100 : ℚ) *
      (lobe100.zx * lobe100.zy * lobe100.zz) / 1000) = 100
  rw [show countPos lobe100 = 1 from by decide]
  rw [show ((1 : ℕ) : ℚ) * (lobe100.zx * lobe100.zy * lobe100.zz) / 1000
      = ((100 : ℤ) : ℚ) from by norm_num [lobe100]]
  rw [pyRoundTo_intCast]
  norm_num

theorem vol_lobe50 : get_volume_cm3 (some lobe50) = 50 := by
  show pyRoundTo 3 ((countPos lobe50 : ℚ) *
      (lobe50.zx * lobe50.zy * lobe50.zz) / 1000) = 50
  rw [show countPos lobe50 = 1 from by decide]
  rw [show ((1 : ℕ) : ℚ) * (lobe50.zx * lobe50.zy * lobe50.zz) / 1000
      = ((50 : ℤ) : ℚ) from by norm_num [lobe50]]
  rw [pyRoundTo_intCast]
  norm_num

theorem axial_unitBleed : axialPositiveIndices unitBleedMask = [0] := by
  norm_num [axialPositiveIndices, sliceSum, unitBleedMask, List.range_succ]

theorem axial_threeSlice : axialPositiveIndices threeSliceMask = [0, 1, 2] := by
  norm_num [axialPositiveIndices, sliceSum, threeSliceMask, List.range_succ]

theorem meanhu_unit : get_mean_hu (some unitBleedMask) tinyCt = some (0, 0) := by
  norm_num [get_mean_hu, sameShape, maskedVoxels, cells, unitBleedMask, tinyCt,
    meanOf, varOf, List.range_succ, pyRoundTo, pyRoundInt]

theorem liver_pdff_neg1000 : liver_pdff (-1000) = 100 := by
  norm_num [liver_pdff, pyRoundTo, pyRoundInt, min_def, max_def]

theorem liver_pdff_1000 : liver_pdff 1000 = 0 := by
  norm_num [liver_pdff, pyRoundTo, pyRoundInt, min_def, max_def]

theorem lobes_complete_ex : lobes_complete exLungFiles = true := by
  have e1 : exLungFiles "lung_upper_lobe_left.nii.gz" = some lobe100 := rfl
  have e2 : exLungFiles "lung_lower_lobe_left.nii.gz" = some lobe100 := rfl
  have e3 : exLungFiles "lung_upper_lobe_right.nii.gz" = some lobe100 := rfl
  have e4 : exLungFiles "lung_middle_lobe_right.nii.gz" = some lobe50 := rfl
  have e5 : exLungFiles "lung_lower_lobe_right.nii.gz" = some lobe100 := rfl
  have m1 : lobe_min_volumes_cm3 "lung_upper_lobe_left" = 100 := rfl
  have m2 : lobe_min_volumes_cm3 "lung_lower_lobe_left" = 100 := rfl
  have m3 : lobe_min_volumes_cm3 "lung_upper_lobe_right" = 100 := rfl
  have m4 : lobe_min_volumes_cm3 "lung_middle_lobe_right" = 50 := rfl
  have m5 : lobe_min_volumes_cm3 "lung_lower_lobe_right" = 100 := rfl
  simp only [lobes_complete, lung_lobes_map, List.all_cons, List.all_nil,
    e1, e2, e3, e4, e5, m1, m2, m3, m4, m5, vol_lobe100, vol_lobe50]
  decide

/-! ### Claim theorems -/

/-- C3: the bone-density classification is a pure step function of the
ROI mean HU with inclusive boundaries: mean above 160 yields Normal,
mean in the closed interval from 100 to 160 yields Osteopenia, mean
below 100 yields Osteoporose (the osteoporosis class, spelled
"Osteoporose" in the source); in particular 161, 160, 100 and 99 map to
Normal, Osteopenia, Osteopenia and Osteoporose respectively. -/
theorem C3_bmd_step_function :
    (∀ m : ℚ, 160 < m → bmd_classification m = "Normal") ∧
    (∀ m : ℚ, 100 ≤ m → m ≤ 160 → bmd_classification m = "Osteopenia") ∧
    (∀ m : ℚ, m < 100 → bmd_classification m = "Osteoporose") ∧
    bmd_classification 161 = "Normal" ∧ bmd_classification 160 = "Osteopenia" ∧
    bmd_classification 100 = "Osteopenia" ∧ bmd_classification 99 = "Osteoporose" := by
  refine ⟨?_, ?_, ?_, by decide, by decide, by decide, by decide⟩
  · intro m hm
    unfold bmd_classification
    rw [if_pos hm]
  · intro m h1 h2
    unfold bmd_classification
    rw [if_neg (by linarith), if_pos h1]
  · intro m hm
    unfold bmd_classification
    rw [if_neg (by linarith), if_neg (by linarith)]

/-- C3 witness: the theorem applied at the concrete mean 161. -/
theorem C3_bmd_witness : (160 : ℚ) < 161 ∧ bmd_classification 161 = "Normal" :=
  ⟨by norm_num, C3_bmd_step_function.1 161 (by norm_num)⟩

/-- C4 counterexample: at in-plane spacing 1.8 mm in both directions
the source computes max(1, int(5 / 1.8)) = 2 erosion iterations, while
the claimed formula max(1, round(5 / 1.8)) gives 3. -/
theorem C4_counterexample :
    erosion_iters (9/5) (9/5) = 2 ∧ max 1 (round ((5 : ℚ) / min (9/5) (9/5))) = 3 := by
  constructor
  · unfold erosion_iters pyTrunc
    norm_num
  · norm_num [round_eq]

/-- C4 (amended): in the BMD analysis, the number of 2D erosion
iterations applied to the L1 mask equals max(1, floor(5 / min(x-spacing,
y-spacing))) for every positive in-plane spacing pair; the source
truncates the positive quotient with int, which is the floor, not the
nearest integer. -/
theorem C4_erosion_iters_floor :
    ∀ zx zy : ℚ, 0 < zx → 0 < zy →
      erosion_iters zx zy = max 1 ⌊(5 : ℚ) / min zx zy⌋ := by
  intro zx zy hx hy
  have hmin : 0 < min zx zy := lt_min hx hy
  have hq : 0 ≤ (5 : ℚ) / min zx zy := by positivity
  unfold erosion_iters pyTrunc
  rw [if_pos hq]

/-- C4 witness: the amended theorem applied at spacing (1.8, 1.8). -/
theorem C4_erosion_witness :
    (0 : ℚ) < 9/5 ∧ erosion_iters (9/5) (9/5) = max 1 ⌊(5 : ℚ) / min (9/5) (9/5)⌋ :=
  ⟨by norm_num, C4_erosion_iters_floor (9/5) (9/5) (by norm_num) (by norm_num)⟩

/-- C6: for every mask on a grid with voxel spacing (x, y, z), the
computed volume in cm3 equals the count of positive voxels times
x*y*z divided by 1000, rounded to 3 decimals; an all-zero mask (and a
missing file) yields exactly 0.0. -/
theorem C6_volume_formula :
    (∀ v : Vol3, get_volume_cm3 (some v) =
        pyRoundTo 3 ((countPos v : ℚ) * (v.zx * v.zy * v.zz) / 1000)) ∧
    (∀ v : Vol3, countPos v = 0 → get_volume_cm3 (some v) = 0) ∧
    get_volume_cm3 none = 0 := by
  refine ⟨fun v => rfl, fun v h => ?_, rfl⟩
  show pyRoundTo 3 ((countPos v : ℚ) * (v.zx * v.zy * v.zz) / 1000) = 0
  rw [h]
  push_cast
  rw [zero_mul, zero_div]
  exact pyRoundTo_zero 3

/-- C6 witness: the theorem applied to a concrete all-zero 2x2x2 mask. -/
theorem C6_volume_witness :
    countPos zeroMask2 = 0 ∧ get_volume_cm3 (some zeroMask2) = 0 :=
  ⟨by decide, C6_volume_formula.2.1 _ (by decide)⟩

/-- C10: for each of liver, spleen, kidney_right and kidney_left the
organ loop always emits the key organ_vol_cm3, in catalog order, with
value get_volume_cm3 of the organ file; a file that is absent or fails
to load yields the value 0.0 rather than a missing key. -/
theorem C10_organ_vol_keys :
    (∀ files : String → Option Vol3,
      organVolEntries files =
        [("liver_vol_cm3", get_volume_cm3 (files "liver.nii.gz")),
         ("spleen_vol_cm3", get_volume_cm3 (files "spleen.nii.gz")),
         ("kidney_right_vol_cm3", get_volume_cm3 (files "kidney_right.nii.gz")),
         ("kidney_left_vol_cm3", get_volume_cm3 (files "kidney_left.nii.gz"))]) ∧
    (∀ (files : String → Option Vol3) (fname : String),
      files fname = none → get_volume_cm3 (files fname) = 0) := by
  refine ⟨fun files => rfl, fun files fname h => ?_⟩
  rw [h]
  rfl

/-- C10 witness: the theorem applied to an empty mask directory. -/
theorem C10_organ_vol_witness :
    (fun _ : String => (none : Option Vol3)) "liver.nii.gz" = none ∧
    get_volume_cm3 ((fun _ : String => (none : Option Vol3)) "liver.nii.gz") = 0 :=
  ⟨rfl, C10_organ_vol_keys.2 (fun _ => none) "liver.nii.gz" rfl⟩

/-- C5: the liver PDFF estimate is present exactly when the modality is
CT, the liver volume exceeds 0.1 cm3 and the liver mean HU is
available; its value is clamp(-0.58 * hu_mean + 38.2, 0, 100) rounded
to 2 decimals; and for every mean HU input, including the extremes
-1000 and 1000, the value lies in [0, 100]. -/
theorem C5_liver_pdff :
    (∀ (modality : String) (mask : Option Vol3) (ct : Vol3) (kvp : String),
        (organEntry modality "liver" mask ct kvp).pdff ≠ none ↔
          (modality = "CT" ∧ get_volume_cm3 mask > 1/10 ∧ get_mean_hu mask ct ≠ none)) ∧
    (∀ (modality : String) (mask : Option Vol3) (ct : Vol3) (kvp : String) (hm hs : ℚ),
        modality = "CT" → get_mean_hu mask ct = some (hm, hs) →
        get_volume_cm3 mask > 1/10 →
          (organEntry modality "liver" mask ct kvp).pdff = some (liver_pdff hm)) ∧
    (∀ hm : ℚ, liver_pdff hm =
        pyRoundTo 2 (max 0 (min 100 ((-58/100) * hm + 382/10))) ∧
        0 ≤ liver_pdff hm ∧ liver_pdff hm ≤ 100) ∧
    liver_pdff (-1000) = 100 ∧ liver_pdff 1000 = 0 := by
  refine ⟨?_, ?_, ?_, liver_pdff_neg1000, liver_pdff_1000⟩
  · intro modality mask ct kvp
    by_cases hmod : modality = "CT"
    · rcases h : get_mean_hu mask ct with _ | ⟨hm, hs⟩ <;>
        by_cases hvol : get_volume_cm3 mask > 1/10 <;>
        simp [organEntry, hmod, h, hvol]
    · simp [organEntry, hmod]
  · intro modality mask ct kvp hm hs hmod h hvol
    have hvol10 : (10 : ℚ)⁻¹ < get_volume_cm3 mask := by
      rw [← one_div]; exact hvol
    simp [organEntry, hmod, h, hvol10]
  · intro hm
    refine ⟨rfl, pyRoundTo_nonneg (le_max_left 0 _), ?_⟩
    have h100 : max 0 (min 100 ((-58/100) * hm + 382/10)) ≤ ((100 : ℤ) : ℚ) := by
      have e : ((100 : ℤ) : ℚ) = 100 := by norm_num
      rw [e]
      exact max_le (by norm_num) (min_le_left _ _)
    have h2 := pyRoundTo_le_intCast (k := 2) h100
    have e2 : ((100 : ℤ) : ℚ) = 100 := by norm_num
    rw [e2] at h2
    exact h2

/-- C5 witness: the theorem applied at a concrete CT case with a
one-voxel liver of 1 cm3 and mean HU 0. -/
theorem C5_liver_witness :
    get_mean_hu (some unitBleedMask) tinyCt = some (0, 0) ∧
    get_volume_cm3 (some unitBleedMask) > 1/10 ∧
    (organEntry "CT" "liver" (some unitBleedMask) tinyCt "120").pdff = some (liver_pdff 0) :=
  ⟨meanhu_unit, by rw [vol_unitBleed]; norm_num,
    C5_liver_pdff.2.1 "CT" (some unitBleedMask) tinyCt "120" 0 0 rfl meanhu_unit
      (by rw [vol_unitBleed]; norm_num)⟩

theorem sliceMaskedVoxels_length (ct m : Vol3) (k : ℕ) :
    (sliceMaskedVoxels ct m k).length = slicePosCount m k := by
  unfold sliceMaskedVoxels slicePosCount
  rw [List.length_map, List.countP_eq_length_filter]

theorem repSlices_mono {zs : List ℕ} (hs : zs.Sorted (· ≤ ·)) (hn : 0 < zs.length) :
    (repSlices zs).1 ≤ (repSlices zs).2.1 ∧ (repSlices zs).2.1 ≤ (repSlices zs).2.2 := by
  have h15 : zs.length * 15 / 100 ≤ zs.length * 50 / 100 :=
    Nat.div_le_div_right (Nat.mul_le_mul_left _ (by norm_num))
  have h50 : zs.length * 50 / 100 ≤ zs.length * 85 / 100 :=
    Nat.div_le_div_right (Nat.mul_le_mul_left _ (by norm_num))
  have hb : ∀ a : ℕ, max 0 (min a (zs.length - 1)) < zs.length := by
    intro a
    rw [max_eq_right (Nat.zero_le _)]
    exact lt_of_le_of_lt (min_le_right _ _) (by omega)
  have hmono : ∀ a b : ℕ, a ≤ b →
      max 0 (min a (zs.length - 1)) ≤ max 0 (min b (zs.length - 1)) := by
    intro a b hab
    exact max_le_max (le_refl 0) (min_le_min hab (le_refl _))
  exact ⟨sorted_getD_mono hs (hmono _ _ h15) (hb _),
         sorted_getD_mono hs (hmono _ _ h50) (hb _)⟩

/-- C7: for every hemorrhage mask with at least 3 distinct positive
axial indices, the three representative slice indices are monotonically
non-decreasing: inferior_15 is at most center_50, which is at most
superior_85. -/
theorem C7_rep_slices_monotone :
    ∀ m : Vol3, 3 ≤ (axialPositiveIndices m).length →
      (repSlices (axialPositiveIndices m)).1 ≤ (repSlices (axialPositiveIndices m)).2.1 ∧
      (repSlices (axialPositiveIndices m)).2.1 ≤ (repSlices (axialPositiveIndices m)).2.2 :=
  fun m h3 => repSlices_mono (axialPositiveIndices_sorted m) (by omega)

/-- C7 witness: the theorem applied to a concrete mask positive on
three axial slices. -/
theorem C7_rep_slices_witness :
    3 ≤ (axialPositiveIndices threeSliceMask).length ∧
    (repSlices (axialPositiveIndices threeSliceMask)).1 ≤
      (repSlices (axialPositiveIndices threeSliceMask)).2.1 := by
  have h3 : 3 ≤ (axialPositiveIndices threeSliceMask).length := by
    rw [axial_threeSlice]; decide
  exact ⟨h3, (C7_rep_slices_monotone threeSliceMask h3).1⟩

/-- C2 counterexample: a one-voxel hemorrhage mask of volume 1 cm3 with
one positive axial slice.  On an MR case (matching shapes) and on a CT
case with mismatched shapes, the volume is reported but the
representative slice indices are not, refuting the claim that the
indices appear regardless of modality and under shape mismatch. -/
theorem C2_counterexample :
    get_volume_cm3 (some unitBleedMask) > 0 ∧
    (axialPositiveIndices unitBleedMask).length > 0 ∧
    sameShape tinyCt unitBleedMask = true ∧
    (hemorrhageStep "MR" (some unitBleedMask) tinyCt).vol = some 1 ∧
    (hemorrhageStep "MR" (some unitBleedMask) tinyCt).slices = none ∧
    sameShape tinyCt3 unitBleedMask = false ∧
    (hemorrhageStep "CT" (some unitBleedMask) tinyCt3).vol = some 1 ∧
    (hemorrhageStep "CT" (some unitBleedMask) tinyCt3).slices = none := by
  refine ⟨by rw [vol_unitBleed]; norm_num, by rw [axial_unitBleed]; decide,
    rfl, ?_, ?_, rfl, ?_, ?_⟩ <;>
    simp [hemorrhageStep, vol_unitBleed, axial_unitBleed,
      show sameShape tinyCt unitBleedMask = true from rfl,
      show sameShape tinyCt3 unitBleedMask = false from rfl]

/-- C2 (amended): for every case whose hemorrhage mask file exists with
volume above 0 and at least one positive axial slice, the volume is
reported, and the three representative indices (the 15th, 50th and 85th
percentile positions of the sorted positive-axial-index set, clamped to
valid range) are reported iff the modality is CT and the intensity
volume and mask shapes match; on shape mismatch or non-CT modality they
are omitted (the source writes them only inside the CT overlay
branch). -/
theorem C2_slices_reporting :
    ∀ (modality : String) (mb : Vol3) (ct : Vol3),
      get_volume_cm3 (some mb) > 0 → (axialPositiveIndices mb).length > 0 →
      ((modality = "CT" → sameShape ct mb = true →
          (hemorrhageStep modality (some mb) ct).slices =
            some (repSlices (axialPositiveIndices mb))) ∧
       (modality ≠ "CT" ∨ sameShape ct mb = false →
          (hemorrhageStep modality (some mb) ct).slices = none) ∧
       (hemorrhageStep modality (some mb) ct).vol = some (get_volume_cm3 (some mb))) := by
  intro modality mb ct hvol hlen
  refine ⟨fun hmod hshape => ?_, fun h => ?_, ?_⟩
  · simp [hemorrhageStep, hvol, hlen, hmod, hshape]
  · rcases h with h | h
    · simp [hemorrhageStep, hvol, hlen, h]
    · by_cases hmod : modality = "CT"
      · simp [hemorrhageStep, hvol, hlen, hmod, h]
      · simp [hemorrhageStep, hvol, hlen, hmod]
  · simp only [hemorrhageStep]
    split_ifs <;> rfl

/-- C2 witness: the amended theorem applied at a concrete CT case with
matching shapes. -/
theorem C2_slices_witness :
    get_volume_cm3 (some unitBleedMask) > 0 ∧
    (hemorrhageStep "CT" (some unitBleedMask) tinyCt).slices =
      some (repSlices (axialPositiveIndices unitBleedMask)) := by
  have h0 : get_volume_cm3 (some unitBleedMask) > 0 := by rw [vol_unitBleed]; norm_num
  have h1 : (axialPositiveIndices unitBleedMask).length > 0 := by
    rw [axial_unitBleed]; decide
  exact ⟨h0, (C2_slices_reporting "CT" unitBleedMask tinyCt h0 h1).1 rfl rfl⟩

/-- C8: whenever the vertebra-L3 mask exists and has at least one
positive axial slice, the recorded landmark slice index is the element
at position floor(count/2) of the sorted positive-axial-index set, and
it is recorded even when the skeletal-muscle mask is absent, in which
case SMA is not computed. -/
theorem C8_landmark_slice :
    ∀ (modality : String) (muscle : Option Vol3) (ct : Vol3) (mL3 : Vol3),
      (axialPositiveIndices mL3).length > 0 →
      ((l3Step modality (some mL3) muscle ct).slice_L3 =
          some ((axialPositiveIndices mL3).getD ((axialPositiveIndices mL3).length / 2) 0) ∧
       (muscle = none → (l3Step modality (some mL3) muscle ct).SMA_cm2 = none)) := by
  intro modality muscle ct mL3 hlen
  constructor
  · cases muscle with
    | none => simp [l3Step, hlen]
    | some m =>
      simp only [l3Step]
      rw [if_pos hlen]
      split_ifs <;> rfl
  · intro hm
    subst hm
    simp [l3Step, hlen]

/-- C8 witness: the theorem applied at a concrete MR case with a
three-slice L3 mask and no muscle mask. -/
theorem C8_landmark_witness :
    (axialPositiveIndices threeSliceMask).length > 0 ∧
    (l3Step "MR" (some threeSliceMask) none tinyCt3).slice_L3 = some 1 ∧
    (l3Step "MR" (some threeSliceMask) none tinyCt3).SMA_cm2 = none := by
  have hlen : (axialPositiveIndices threeSliceMask).length > 0 := by
    rw [axial_threeSlice]; decide
  have h := C8_landmark_slice "MR" none tinyCt3 threeSliceMask hlen
  refine ⟨hlen, ?_, h.2 rfl⟩
  rw [h.1, axial_threeSlice]
  decide

/-- C9: when the skeletal-muscle mask exists and a landmark slice was
found (with the slice index inside the muscle and, for CT, the CT
grids): on a CT case whose muscle mask has no positive voxel at that
slice, muscle_HU_mean and muscle_HU_std are reported as 0.0, not null;
on an MR case both are reported as null regardless of the muscle mask
content. -/
theorem C9_muscle_density_defaults :
    ∀ (mL3 m ct : Vol3),
      (axialPositiveIndices mL3).length > 0 →
      (axialPositiveIndices mL3).getD ((axialPositiveIndices mL3).length / 2) 0 < m.nz →
      ((m.nx = ct.nx → m.ny = ct.ny →
          (axialPositiveIndices mL3).getD ((axialPositiveIndices mL3).length / 2) 0 < ct.nz →
          slicePosCount m ((axialPositiveIndices mL3).getD ((axialPositiveIndices mL3).length / 2) 0) = 0 →
          (l3Step "CT" (some mL3) (some m) ct).muscle_HU_mean = some (some 0) ∧
          (l3Step "CT" (some mL3) (some m) ct).muscle_HU_std = some (some 0)) ∧
       ((l3Step "MR" (some mL3) (some m) ct).muscle_HU_mean = some none ∧
        (l3Step "MR" (some mL3) (some m) ct).muscle_HU_std = some none)) := by
  intro mL3 m ct hlen hz
  constructor
  · intro hx hy hctz hcount
    have hvox : (sliceMaskedVoxels ct m
        ((axialPositiveIndices mL3).getD ((axialPositiveIndices mL3).length / 2) 0)).length = 0 := by
      rw [sliceMaskedVoxels_length]
      exact hcount
    simp only [List.getD_eq_getElem?_getD] at hz hctz hvox
    simp [l3Step, hlen, hz, hx, hy, hctz, hvox]
  · simp only [List.getD_eq_getElem?_getD] at hz
    simp [l3Step, hlen, hz]

/-- C9 witness: the theorem applied at a concrete case with an all-zero
muscle mask. -/
theorem C9_muscle_witness :
    (axialPositiveIndices threeSliceMask).length > 0 ∧
    (l3Step "CT" (some threeSliceMask) (some tinyCt3) tinyCt3).muscle_HU_mean = some (some 0) ∧
    (l3Step "MR" (some threeSliceMask) (some tinyCt3) tinyCt3).muscle_HU_mean = some none := by
  have hlen : (axialPositiveIndices threeSliceMask).length > 0 := by
    rw [axial_threeSlice]; decide
  have hz : (axialPositiveIndices threeSliceMask).getD
      ((axialPositiveIndices threeSliceMask).length / 2) 0 < tinyCt3.nz := by
    rw [axial_threeSlice]; decide
  have hcount : slicePosCount tinyCt3 ((axialPositiveIndices threeSliceMask).getD
      ((axialPositiveIndices threeSliceMask).length / 2) 0) = 0 := by
    rw [axial_threeSlice]; decide
  have h := C9_muscle_density_defaults threeSliceMask tinyCt3 tinyCt3 hlen hz
  exact ⟨hlen, (h.1 rfl rfl hz hcount).1, h.2.1⟩

/-- C1: whenever the lobe-completeness gate passes (all five lobe files
exist and no lobe volume is strictly below its minimum) and the
modality is CT, the source raises UnboundLocalError at its first use of
the unassigned local nii_lobe (metrics.py:584), so lung_analysis_status
is "Error" and no lobe-level metrics appear — never "Complete" with
metrics as the claim states.  When the gate fails or the modality is
not CT, the status is "Incomplete or non-CT" with no lobe metrics, as
the claim states.  The concrete directory exLungFiles, holding all five
lobes at exactly their minimum volumes, passes the gate (the strict
less-than rule admits the boundary). -/
theorem C1_emphysema_error :
    (∀ (modality : String) (files : String → Option Vol3) (ct : Vol3),
        lobes_complete files = true → modality = "CT" →
        (emphysemaStep modality files ct).status = some "Error" ∧
        (emphysemaStep modality files ct).lobe_metrics = none) ∧
    (∀ (modality : String) (files : String → Option Vol3) (ct : Vol3),
        lobes_complete files = false ∨ modality ≠ "CT" →
        (emphysemaStep modality files ct).status = some "Incomplete or non-CT" ∧
        (emphysemaStep modality files ct).lobe_metrics = none) ∧
    lobes_complete exLungFiles = true := by
  refine ⟨?_, ?_, lobes_complete_ex⟩
  · intro modality files ct h1 h2
    constructor <;> simp [emphysemaStep, emphysemaTry, h1, h2]
  · intro modality files ct h
    rcases h with h | h
    · constructor <;> simp [emphysemaStep, h]
    · constructor <;> simp [emphysemaStep, h]

/-- C1 witness: the theorem applied at the concrete gate-passing CT
directory exLungFiles. -/
theorem C1_emphysema_witness :
    lobes_complete exLungFiles = true ∧
    (emphysemaStep "CT" exLungFiles tinyCt).status = some "Error" :=
  ⟨lobes_complete_ex, (C1_emphysema_error.1 "CT" exLungFiles tinyCt lobes_complete_ex rfl).1⟩

end Heimdallr

